import Mathlib

/-
Verification of the recovery orchestrator (recover.py) against its
natural-language specification.  Filenames are modelled as lists of
characters; all string primitives used by the source (find, slicing,
split, int(), lexicographic comparison, isdigit) are embedded below.
-/

namespace Recover

/-- Shorthand turning a string literal into the character-list representation
used throughout the development. -/
def chs (s : String) : List Char := s.toList

/-- Does `pat` occur at the head of `s`?  (Used to implement Python's
`str.find`.) -/
def matchPat : List Char → List Char → Bool
  | _, [] => true
  | [], _ :: _ => false
  | c :: cs, p :: ps => c == p && matchPat cs ps

/-- Python `s.find(pat)`: index of the first occurrence of `pat` in `s`,
`none` standing for Python's `-1`. -/
def findSub : List Char → List Char → Option Nat
  | s, pat =>
    if matchPat s pat then some 0
    else
      match s with
      | [] => none
      | _ :: cs => (findSub cs pat).map (· + 1)

/-- Python `str.split(sep)` for a single-character separator: never returns
an empty list; `"".split(sep) = [""]`. -/
def splitOnCh (sep : Char) : List Char → List (List Char)
  | [] => [[]]
  | c :: cs =>
    let r := splitOnCh sep cs
    if c == sep then [] :: r
    else
      match r with
      | [] => [[c]]
      | h :: t => (c :: h) :: t

/-- Python `str.replace(c, "")`. -/
def removeCh (c : Char) (l : List Char) : List Char := l.filter (fun x => x ≠ c)

/-- Python `str.isdigit` restricted to ASCII decimal digits (the only ones
appearing in archive names). -/
def isdigitL (l : List Char) : Bool := !l.isEmpty && l.all (·.isDigit)

/-- Decimal value of a digit character. -/
def digitVal (c : Char) : Nat := c.toNat - '0'.toNat

/-- Python `int(s)`: `some` of the decimal value on an all-digit non-empty
string, `none` (a `ValueError`) otherwise. -/
def toNatD (l : List Char) : Option Nat :=
  if isdigitL l then some (l.foldl (fun acc c => 10 * acc + digitVal c) 0) else none

/-- Strict lexicographic order on character lists, as Python compares
strings (by code point, a proper prefix is smaller). -/
def strLt : List Char → List Char → Bool
  | [], [] => false
  | [], _ :: _ => true
  | _ :: _, [] => false
  | a :: as, b :: bs => if a < b then true else if a == b then strLt as bs else false

/-- Python `<=` on strings. -/
def strLe (a b : List Char) : Bool := strLt a b || a == b

/-- Per-file predicate of the module-level `filter_files_by_time`
(recover.py lines 16-43): locate `_s`/`_e`, slice the timestamp between
them, require at least 9 characters, require year+julian-day to equal the
date-key, and accept when the 2-digit hour falls inside at least one
window (the loop `break` keeps each file at most once, so the whole loop
is a filter over this predicate). -/
def keepsFile (fecha_jjj : List Char) (horarios : List (List Char)) (nombre : List Char) : Bool :=
  match findSub nombre (chs "_s"), findSub nombre (chs "_e") with
  | some s_idx, some e_idx =>
    let ts := (nombre.drop (s_idx + 2)).take (e_idx - (s_idx + 2))
    if ts.length < 9 then false
    else
      let anio := ts.take 4
      let dia := (ts.drop 4).take 3
      let hora := (ts.drop 7).take 2
      if (anio ++ dia) ≠ fecha_jjj then false
      else
        horarios.any (fun horario =>
          let partes := splitOnCh '-' horario
          let inicio := (partes.headD []).take 2
          let fin := if 1 < partes.length then ((partes.get? 1).getD []).take 2 else inicio
          strLe inicio hora && strLe hora fin)
  | _, _ => false

/-- Module-level `filter_files_by_time` (recover.py lines 16-43). -/
def filter_files_by_time (archivos : List (List Char)) (fecha_jjj : List Char)
    (horarios : List (List Char)) : List (List Char) :=
  archivos.filter (keepsFile fecha_jjj horarios)

/-- Zero-padded decimal rendering of a natural number to width `w`, Python's
format `{:0wd}`. -/
def padZ (w n : Nat) : List Char :=
  let d := Nat.toDigits 10 n
  List.replicate (w - d.length) '0' ++ d

/-- Filesystem path join with `/`, as `Path./` does. -/
def pathJoin (a b : List Char) : List Char := a ++ '/' :: b

namespace LustreRecoverFiles

/-- Weekly partition directory used by `find_files_for_day`
(recover.py lines 59-63): `base / year / week` with
`week = (dayOfYear - 1) / 7 + 1` in integer arithmetic, printed with
width-2 zero padding. -/
def directorio_semana (base fecha_jjj : List Char) (dia : Nat) : List Char :=
  pathJoin (pathJoin base (fecha_jjj.take 4)) (padZ 2 ((dia - 1) / 7 + 1))

/-- Day glob pattern of `find_files_for_day` (recover.py line 67). -/
def patron_dia (fecha_jjj : List Char) (dia : Nat) : List Char :=
  chs "*" ++ fecha_jjj.take 4 ++ padZ 3 dia ++ chs "*.tgz"

/-- `LustreRecoverFiles.find_files_for_day` (recover.py lines 59-70).
The filesystem is abstracted by `fsExists` (directory existence) and
`fsGlob` (glob listing in a directory).  `none` models the `ValueError`
raised by `int` on a malformed date-key; otherwise the call returns
normally: the glob result when the weekly directory exists, `[]` when it
does not. -/
def find_files_for_day (fsExists : List Char → Bool)
    (fsGlob : List Char → List Char → List (List Char))
    (base fecha_jjj : List Char) : Option (List (List Char)) :=
  match toNatD (fecha_jjj.drop 4) with
  | none => none
  | some dia =>
    let dir := directorio_semana base fecha_jjj dia
    if fsExists dir then some (fsGlob dir (patron_dia fecha_jjj dia)) else some []

/-- Start timestamp extracted by `LustreRecoverFiles.filter_files_by_time`
(recover.py lines 89-92): the 11 characters after the first `-s` marker,
parsed as an integer (`none` when the marker is missing or the slice does
not parse, both of which make the loop skip the file). -/
def lustre_extract_ts (nombre : List Char) : Option Nat :=
  match findSub nombre (chs "-s") with
  | some i => toNatD ((nombre.drop (i + 2)).take 11)
  | none => none

/-- Integer window bounds built by `LustreRecoverFiles.filter_files_by_time`
(recover.py lines 74-82): `fecha_jjj ++ HH ++ "00"` and
`fecha_jjj ++ HH ++ "59"`, `none` modelling the `ValueError` that skips the
window. -/
def lustre_bounds (fecha_jjj horario : List Char) : Option (Nat × Nat) :=
  let partes := splitOnCh '-' horario
  let inicio := removeCh ':' (partes.headD [])
  let fin := if 1 < partes.length then removeCh ':' ((partes.get? 1).getD []) else inicio
  match toNatD (fecha_jjj ++ inicio.take 2 ++ chs "00"),
        toNatD (fecha_jjj ++ fin.take 2 ++ chs "59") with
  | some lo, some hi => some (lo, hi)
  | _, _ => none

/-- Inner per-window pass of `LustreRecoverFiles.filter_files_by_time`
(recover.py lines 87-96): keep the candidates whose extracted timestamp
lies in the window's integer bounds. -/
def window_pass (archivos : List (List Char)) (fecha_jjj horario : List Char) :
    List (List Char) :=
  match lustre_bounds fecha_jjj horario with
  | none => []
  | some (lo, hi) =>
    archivos.filter (fun a =>
      match lustre_extract_ts a with
      | some ts => decide (lo ≤ ts) && decide (ts ≤ hi)
      | none => false)

/-- `LustreRecoverFiles.filter_files_by_time` (recover.py lines 72-97):
the outer loop runs over the windows and appends each window's matches. -/
def filter_files_by_time (archivos : List (List Char)) (fecha_jjj : List Char)
    (horarios : List (List Char)) : List (List Char) :=
  (horarios.map (window_pass archivos fecha_jjj)).flatten

/-- Content timestamp used by `scan_existing_files`
(recover.py lines 117-125): the 11 characters after the first `_s` marker. -/
def extract_us_ts (nombre : List Char) : Option (List Char) :=
  match findSub nombre (chs "_s") with
  | some i => some ((nombre.drop (i + 2)).take 11)
  | none => none

/-- Boolean membership of a timestamp in a collected list. -/
def containsTs (l : List (List Char)) (t : List Char) : Bool :=
  l.any (fun x => x == t)

/-- Set of content timestamps already present in the destination
(recover.py lines 114-120): only regular files with a `_s` marker
contribute.  A destination entry is a pair (name, isFile). -/
def destTimestamps (entries : List (List Char × Bool)) : List (List Char) :=
  (entries.filter (fun e => e.2)).filterMap (fun e => extract_us_ts e.1)

/-- `LustreRecoverFiles.scan_existing_files` (recover.py lines 110-132).
The destination directory is abstracted as an existence flag plus its
entry list.  An absent or empty destination returns every candidate;
otherwise a candidate is dropped exactly when its `_s` timestamp is
already present, and kept when it has no `_s` marker. -/
def scan_existing_files (archivos_a_procesar : List (List Char))
    (destExists : Bool) (entries : List (List Char × Bool)) : List (List Char) :=
  if !destExists || entries.isEmpty then archivos_a_procesar
  else
    let tss := destTimestamps entries
    archivos_a_procesar.filter (fun a =>
      match extract_us_ts a with
      | some t => !containsTs tss t
      | none => true)

end LustreRecoverFiles

/-- Modelled from the spec (C7 wording): the time-narrowing rule exactly as
the specification states it — the 11-digit `YYYYJJJHHMM` token after the
start marker must lie in the integer range
`[YYYYJJJHH0000, YYYYJJJHH5959]` built from the window's start and end
hours (13-digit bounds). -/
def specw_lustre_bounds (fecha_jjj horario : List Char) : Option (Nat × Nat) :=
  let partes := splitOnCh '-' horario
  let inicio := removeCh ':' (partes.headD [])
  let fin := if 1 < partes.length then removeCh ':' ((partes.get? 1).getD []) else inicio
  match toNatD (fecha_jjj ++ inicio.take 2 ++ chs "0000"),
        toNatD (fecha_jjj ++ fin.take 2 ++ chs "5959") with
  | some lo, some hi => some (lo, hi)
  | _, _ => none

/-- Modelled from the spec (C7 wording): a file is kept exactly when its own
timestamp integer lies inside the spec's 13-digit range for some window. -/
def specw_lustre_keep (fecha_jjj : List Char) (horarios : List (List Char))
    (nombre : List Char) : Bool :=
  horarios.any (fun h =>
    match specw_lustre_bounds fecha_jjj h, LustreRecoverFiles.lustre_extract_ts nombre with
    | some (lo, hi), some ts => decide (lo ≤ ts) && decide (ts ≤ hi)
    | _, _ => false)

/-- Python `s[i:]` after the first occurrence of `pat` (the whole string
when `pat` is absent). -/
def afterFirst (pat s : List Char) : List Char :=
  match findSub s pat with
  | some i => s.drop (i + pat.length)
  | none => s

/-- Python `s[:i]` up to the first occurrence of `pat` (the whole string
when `pat` is absent). -/
def beforeFirst (pat s : List Char) : List Char :=
  match findSub s pat with
  | some i => s.take i
  | none => s

/-- Python `pat in s`. -/
def containsSub (s pat : List Char) : Bool := (findSub s pat).isSome

/-- Product token inferred from one tar member name
(recover.py lines 443-445): `name.split('-L2-')[1].split('F-')[0]` guarded
by `'-L2-' in name` (the slice between the first two `-L2-` markers, cut
before the first `F-`). -/
def producto_de (nombre : List Char) : Option (List Char) :=
  if containsSub nombre (chs "-L2-") then
    some (beforeFirst (chs "F-") (beforeFirst (chs "-L2-") (afterFirst (chs "-L2-") nombre)))
  else none

/-- Band token inferred from one tar member name
(recover.py lines 446-451): `name.split('C', 1)[1].split('_', 1)[0]`,
kept only when all digits, guarded by `'C' in name and '_' in name`. -/
def banda_de (nombre : List Char) : Option (List Char) :=
  if containsSub nombre (chs "C") && containsSub nombre (chs "_") then
    let b := beforeFirst (chs "_") (afterFirst (chs "C") nombre)
    if isdigitL b then some b else none
  else none

/-- Products present in a bundle (recover.py lines 441-445): only regular
file members contribute.  A member is a pair (name, isFile). -/
def productos_en_tgz (miembros : List (List Char × Bool)) : List (List Char) :=
  (miembros.filter (fun m => m.2)).filterMap (fun m => producto_de m.1)

/-- Bands present in a bundle (recover.py lines 441-451). -/
def bandas_en_tgz (miembros : List (List Char × Bool)) : List (List Char) :=
  (miembros.filter (fun m => m.2)).filterMap (fun m => banda_de m.1)

/-- Python `set(a).issubset(set(b))` on token lists. -/
def subsetL (a b : List (List Char)) : Bool :=
  a.all (fun x => LustreRecoverFiles.containsTs b x)

/-- Python strict-subset `set(a) < set(b)` on token lists (used only by the
spec-worded predicate below). -/
def strictSubsetL (a b : List (List Char)) : Bool :=
  subsetL a b && !subsetL b a

/-- Whole-bundle-copy decision of `_process_safe_recover_file`
(recover.py lines 456-459), literally the four disjuncts of the source:
no products requested at L2, no bands requested at L1b, or the contained
products/bands are not a (non-strict) subset of the requested ones. -/
def copiar_tgz_completo (nivel : List Char)
    (productos_en bandas_en productos_sol bandas_sol : List (List Char)) : Bool :=
  (nivel == chs "L2" && productos_sol.isEmpty)
    || (nivel == chs "L1b" && bandas_sol.isEmpty)
    || (nivel == chs "L2" && !productos_sol.isEmpty && !subsetL productos_en productos_sol)
    || (nivel == chs "L1b" && !bandas_sol.isEmpty && !subsetL bandas_en bandas_sol)

/-- Modelled from the spec (C2 wording): copy the whole bundle when the
request imposes no filter for the level, or when the contained set is not a
STRICT subset of the requested set. -/
def specw_copy_whole (nivel : List Char)
    (productos_en bandas_en productos_sol bandas_sol : List (List Char)) : Bool :=
  (nivel == chs "L2" && productos_sol.isEmpty)
    || (nivel == chs "L1b" && bandas_sol.isEmpty)
    || (nivel == chs "L2" && !productos_sol.isEmpty && !strictSubsetL productos_en productos_sol)
    || (nivel == chs "L1b" && !bandas_sol.isEmpty && !strictSubsetL bandas_en bandas_sol)

/-- Member-selection predicate of the selective-extraction loop
(recover.py lines 468-471): the member name contains `-L2-<product>` for a
requested product or `C<band>_` for a requested band.  The loop runs over
every tar member, without the regular-file restriction of the inference
pass. -/
def miembro_coincide (productos_sol bandas_sol : List (List Char)) (nombre : List Char) : Bool :=
  productos_sol.any (fun p => containsSub nombre (chs "-L2-" ++ p))
    || bandas_sol.any (fun b => containsSub nombre (chs "C" ++ b ++ chs "_"))

/-- `_process_safe_recover_file` (recover.py lines 428-486) on an already
opened bundle, destination paths abbreviated to bare names: copy the whole
bundle when `copiar_tgz_completo` holds (result: the bundle's own name);
otherwise extract the matching members, and raise (`Except.error`, the
`FileNotFoundError` re-raised by the handler at lines 479-484) when no
member matches. -/
def process_safe_recover_file (miembros : List (List Char × Bool))
    (archivo_fuente nivel : List Char)
    (productos_sol bandas_sol : List (List Char)) : Except Unit (List (List Char)) :=
  let pE := productos_en_tgz miembros
  let bE := bandas_en_tgz miembros
  if copiar_tgz_completo nivel pE bE productos_sol bandas_sol then
    Except.ok [archivo_fuente]
  else
    let mExtr := miembros.filter (fun m => miembro_coincide productos_sol bandas_sol m.1)
    if mExtr.isEmpty then Except.error () else Except.ok (mExtr.map (fun m => m.1))

/-- Did a worker unit end in an exception (timeout or error)? -/
def isErr (r : Except Unit (List (List Char))) : Bool :=
  match r with
  | .error _ => true
  | .ok _ => false

/-- Local failure accumulation of `procesar_consulta`
(recover.py lines 193-223): `objetivos_fallidos_local` starts from the
inaccessible-file list and appends the source file of every worker unit
whose awaited result raised. -/
def local_loop (outcomes : List (List Char × Except Unit (List (List Char))))
    (init : List (List Char)) : List (List Char) :=
  init ++ (outcomes.filter (fun o => isErr o.2)).map (fun o => o.1)

/-- Failure set handed to the report/retry-query builder
(recover.py lines 253-258 and 263-265).  Modelled from the spec:
`S3RecoverFiles.download_files` lives in `s3_recover.py`, which is absent
from the sources; per the specification it returns `(recovered,
stillFailed)` computed from the remote targets alone, so its `stillFailed`
output enters this model as the arbitrary list `s3_still_failed`.  When
the S3 fallback is enabled the code binds `objetivos_fallidos_final` to
that output; otherwise to the local failures. -/
def objetivos_fallidos_final (s3_fallback_enabled : Bool)
    (fallidos_local s3_still_failed : List (List Char)) : List (List Char) :=
  if s3_fallback_enabled then s3_still_failed else fallidos_local

/-- Events of the local dispatch loop (recover.py lines 212-223): a
status-store progress write and the awaiting of one target's result. -/
inductive PEvent where
  | update : Nat → Nat → PEvent
  | await : Nat → PEvent
deriving DecidableEq

/-- Progress value written for iteration `i` of the dispatch loop
(recover.py line 214): `20 + int(((i + 1) / total) * 60)`, here in exact
integer arithmetic (`20 + 60 * (i + 1) / total`); the source's float
rounding can differ from the exact value by at most one unit but is
monotone in `i` exactly as this function is. -/
def progreso (total i : Nat) : Nat := 20 + 60 * (i + 1) / total

/-- Event sequence of the dispatch loop, `k` iterations starting at index
`i` (recover.py lines 212-223): each iteration writes the progress update
and then awaits that target's result. -/
def traceAux (total : Nat) : Nat → Nat → List PEvent
  | _, 0 => []
  | i, k + 1 =>
    PEvent.update i (progreso total i) :: PEvent.await i :: traceAux total (i + 1) k

/-- Full event sequence of the dispatch loop over `total` targets. -/
def local_trace (total : Nat) : List PEvent := traceAux total 0 total

/-- Modelled from the spec (C5 wording): the progress write for each target
occurs only after that target's result has been awaited, i.e. the await
event appears strictly before the update event in the loop's trace. -/
def specw_updatesAfterAwait (total : Nat) : Prop :=
  ∀ i, i < total →
    (local_trace total).indexOf (PEvent.await i)
      < (local_trace total).indexOf (PEvent.update i (progreso total i))

/-- Python `str.strip()`: drop whitespace from both ends. -/
def stripL (l : List Char) : List Char :=
  ((l.dropWhile (·.isWhitespace)).reverse.dropWhile (·.isWhitespace)).reverse

/-- Python `str.upper()` over the ASCII tokens appearing in queries. -/
def upperL (l : List Char) : List Char := l.map Char.toUpper

/-- `str(p).strip().upper()` as applied to requested products
(recover.py line 230 and line 370). -/
def stripUpper (l : List Char) : List Char := upperL (stripL l)

/-- `p.startswith("CMI")` (recover.py lines 231-232 and 374). -/
def startsCMI (p : List Char) : Bool := matchPat p (chs "CMI")

/-- Remote discovery passes issued by `procesar_consulta`
(recover.py lines 228-246): the upper-cased products split into the CMI
family (queried with the request's band list) and the rest (queried with
an explicitly empty band list); a pass is issued only when its product
list is non-empty. -/
def s3_discovery_passes (productos bandas : List (List Char)) :
    List (List (List Char) × List (List Char)) :=
  let up := productos.map stripUpper
  let cmi := up.filter startsCMI
  let other := up.filter (fun p => !startsCMI p)
  (if cmi.isEmpty then [] else [(cmi, bandas)])
    ++ (if other.isEmpty then [] else [(other, [])])

/-- The sixteen band tokens `01` … `16` used when no band is supplied
(recover.py line 376). -/
def allBands : List (List Char) := (List.range 16).map (fun i => padZ 2 (i + 1))

/-- Band normalisation `f"{int(b):02d}" if str(b).isdigit() else str(b)`
(recover.py line 378). -/
def band2 (b : List Char) : List Char :=
  if isdigitL b then padZ 2 ((toNatD b).getD 0) else b

/-- Domain letter (recover.py line 369). -/
def dom_letter (dominio : List Char) : List Char :=
  if dominio == chs "conus" then chs "C" else chs "F"

/-- Banded L2 filename pattern (recover.py line 380). -/
def patternCMI (prod dom b2 sat ti tf : List Char) : List Char :=
  chs "CG_ABI-L2-" ++ prod ++ dom ++ chs "-M6C" ++ b2 ++ chs "_" ++ sat
    ++ chs "_s" ++ ti ++ chs "_e" ++ tf ++ chs "_c*.nc"

/-- Bandless L2 filename pattern (recover.py line 383). -/
def patternNB (prod dom sat ti tf : List Char) : List Char :=
  chs "CG_ABI-L2-" ++ prod ++ dom ++ chs "-M6_" ++ sat
    ++ chs "_s" ++ ti ++ chs "_e" ++ tf ++ chs "_c*.nc"

/-- `RecoverFiles._iter_patrones_l2` (recover.py lines 355-383): banded
patterns for CMI-family products (all sixteen bands when none supplied),
a single bandless pattern for every other product. -/
def iter_patrones_l2 (productos : List (List Char)) (dominio : List Char)
    (bandas : List (List Char)) (sat ti tf : List Char) : List (List Char) :=
  let dom := dom_letter dominio
  (productos.map stripUpper).flatMap (fun prod =>
    if startsCMI prod then
      (if bandas.isEmpty then allBands else bandas).map
        (fun b => patternCMI prod dom (band2 b) sat ti tf)
    else [patternNB prod dom sat ti tf])

end Recover

section Claims
open Recover

/-- Membership in one per-window pass of the Lustre time filter. -/
theorem mem_window_pass (archivos : List (List Char)) (fecha_jjj horario a : List Char) :
    a ∈ LustreRecoverFiles.window_pass archivos fecha_jjj horario ↔
      a ∈ archivos ∧ ∃ lo hi ts,
        LustreRecoverFiles.lustre_bounds fecha_jjj horario = some (lo, hi) ∧
        LustreRecoverFiles.lustre_extract_ts a = some ts ∧ lo ≤ ts ∧ ts ≤ hi := by
  cases hb : LustreRecoverFiles.lustre_bounds fecha_jjj horario with
  | none => simp [LustreRecoverFiles.window_pass, hb]
  | some p =>
    obtain ⟨lo, hi⟩ := p
    cases hx : LustreRecoverFiles.lustre_extract_ts a with
    | none => simp [LustreRecoverFiles.window_pass, hb, List.mem_filter, hx]
    | some ts =>
      simp only [LustreRecoverFiles.window_pass, hb, List.mem_filter, hx]
      constructor
      · rintro ⟨hm, hp⟩
        refine ⟨hm, lo, hi, ts, rfl, rfl, ?_, ?_⟩ <;> simp_all
      · rintro ⟨hm, lo', hi', ts', heq, hts, h1, h2⟩
        obtain ⟨rfl, rfl⟩ : lo = lo' ∧ hi = hi' := by
          simpa [Prod.ext_iff] using heq
        obtain rfl : ts = ts' := by simpa using hts
        simp [hm, h1, h2]

/-- C9: the module-level time filter is a pure function of its inputs
(determinism and freedom from side effects hold by construction of the
embedding) and is idempotent: filtering its own output returns that
output unchanged, for every file list, date-key and window list. -/
theorem claim_C9_filter_time_idempotent (archivos : List (List Char))
    (fecha_jjj : List Char) (horarios : List (List Char)) :
    filter_files_by_time (filter_files_by_time archivos fecha_jjj horarios) fecha_jjj horarios
      = filter_files_by_time archivos fecha_jjj horarios := by
  simp [filter_files_by_time, List.filter_filter]

/-- C7 counterexample: the file `A-s20211931005123.tgz` is kept by the code's
time narrowing for date-key `2021193` and window `10:00-10:59` (its 11-digit
token `20211931005` lies in the code's range `[20211931000, 20211931059]`),
yet its timestamp integer does not lie in the spec's stated 13-digit range
`[2021193100000, 2021193105959]`, so the claim as written is false. -/
theorem claim_C7_counterexample :
    LustreRecoverFiles.filter_files_by_time [chs "A-s20211931005123.tgz"]
        (chs "2021193") [chs "10:00-10:59"] = [chs "A-s20211931005123.tgz"]
      ∧ specw_lustre_keep (chs "2021193") [chs "10:00-10:59"]
          (chs "A-s20211931005123.tgz") = false := by
  constructor <;> decide

/-- C7 amended: the time narrowing extracts the 11-digit `YYYYJJJHHMM` token
after the start marker and keeps a file exactly when, for some window, that
integer lies in the range `[YYYYJJJHH00, YYYYJJJHH59]` (11-digit bounds)
built from the window's start and end hours. -/
theorem claim_C7_amended (archivos : List (List Char)) (fecha_jjj : List Char)
    (horarios : List (List Char)) (a : List Char) :
    a ∈ LustreRecoverFiles.filter_files_by_time archivos fecha_jjj horarios ↔
      ∃ h ∈ horarios, a ∈ archivos ∧ ∃ lo hi ts,
        LustreRecoverFiles.lustre_bounds fecha_jjj h = some (lo, hi) ∧
        LustreRecoverFiles.lustre_extract_ts a = some ts ∧ lo ≤ ts ∧ ts ≤ hi := by
  simp only [LustreRecoverFiles.filter_files_by_time, List.mem_flatten, List.mem_map]
  constructor
  · rintro ⟨l, ⟨h, hh, rfl⟩, hm⟩
    exact ⟨h, hh, (mem_window_pass archivos fecha_jjj h a).mp hm⟩
  · rintro ⟨h, hh, hrest⟩
    exact ⟨_, ⟨h, hh, rfl⟩, (mem_window_pass archivos fecha_jjj h a).mpr hrest⟩

/-- C8: for a date-key whose day-of-year parses (and is at least 1, where
Python's floor division agrees with truncated natural division), the local
scanner looks in the weekly partition directory `base/year/week` with
`week = (dayOfYear - 1) / 7 + 1` in integer arithmetic, and when that
directory does not exist it returns an empty candidate list normally (a
`some`, never the exceptional `none`). -/
theorem claim_C8_week_partition_missing_dir (fsExists : List Char → Bool)
    (fsGlob : List Char → List Char → List (List Char))
    (base fecha_jjj : List Char) (dia : Nat)
    (hparse : toNatD (fecha_jjj.drop 4) = some dia) (_hpos : 1 ≤ dia) :
    LustreRecoverFiles.directorio_semana base fecha_jjj dia
        = pathJoin (pathJoin base (fecha_jjj.take 4)) (padZ 2 ((dia - 1) / 7 + 1))
      ∧ LustreRecoverFiles.find_files_for_day fsExists fsGlob base fecha_jjj
        = some (if fsExists (LustreRecoverFiles.directorio_semana base fecha_jjj dia) then
                  fsGlob (LustreRecoverFiles.directorio_semana base fecha_jjj dia)
                    (LustreRecoverFiles.patron_dia fecha_jjj dia)
                else [])
      ∧ (fsExists (LustreRecoverFiles.directorio_semana base fecha_jjj dia) = false →
          LustreRecoverFiles.find_files_for_day fsExists fsGlob base fecha_jjj = some []) := by
  refine ⟨rfl, ?_, ?_⟩
  · rw [LustreRecoverFiles.find_files_for_day, hparse]
    cases h : fsExists (LustreRecoverFiles.directorio_semana base fecha_jjj dia) <;> simp [h]
  · intro hmiss
    rw [LustreRecoverFiles.find_files_for_day, hparse]
    simp [hmiss]

/-- C8 witness: date-key `2024100` parses to day 100 (week 15); with a
filesystem in which no directory exists, the scanner returns an empty list
for the slice rather than failing. -/
theorem claim_C8_witness :
    LustreRecoverFiles.find_files_for_day (fun _ => false) (fun _ _ => [])
        (chs "/data") (chs "2024100") = some [] :=
  (claim_C8_week_partition_missing_dir (fun _ => false) (fun _ _ => [])
    (chs "/data") (chs "2024100") 100 (by decide) (by decide)).2.2 rfl

/-- C3: the resume scanner returns all candidates when the destination is
absent or empty, and otherwise keeps a candidate exactly when it is among
the inputs and its embedded `_s` content timestamp is not already present
among the destination's files — so a bundle whose timestamp is already in
the destination is never returned for re-processing. -/
theorem claim_C3_resume_scanner (archivos : List (List Char)) (destExists : Bool)
    (entries : List (List Char × Bool)) :
    ((destExists = false ∨ entries = []) →
        LustreRecoverFiles.scan_existing_files archivos destExists entries = archivos)
      ∧ (destExists = true → ∀ a,
          a ∈ LustreRecoverFiles.scan_existing_files archivos destExists entries ↔
            (a ∈ archivos ∧ ∀ t, LustreRecoverFiles.extract_us_ts a = some t →
              t ∉ LustreRecoverFiles.destTimestamps entries)) := by
  constructor
  · rintro (rfl | rfl) <;> simp [LustreRecoverFiles.scan_existing_files]
  · rintro rfl a
    by_cases he : entries = []
    · subst he
      simp [LustreRecoverFiles.scan_existing_files, LustreRecoverFiles.destTimestamps]
    · have hE : entries.isEmpty = false := by
        simpa [List.isEmpty_iff] using he
      simp only [LustreRecoverFiles.scan_existing_files, hE, Bool.not_true,
        Bool.false_or, if_neg, Bool.false_eq_true, not_false_eq_true,
        List.mem_filter, ite_false]
      cases hx : LustreRecoverFiles.extract_us_ts a with
      | none => simp [hx]
      | some t =>
        simp [hx, LustreRecoverFiles.containsTs, List.any_eq_true]
        exact fun _ => ⟨fun h ht => h t ht rfl, fun h x hx2 hxt => h (hxt ▸ hx2)⟩

/-- C3 witness: with an absent destination every candidate stays pending,
and with a destination already holding timestamp `20211931005` the candidate
carrying that timestamp is filtered by the already-present test. -/
theorem claim_C3_witness :
    LustreRecoverFiles.scan_existing_files [chs "a_s20211931005.tgz"] false []
        = [chs "a_s20211931005.tgz"]
      ∧ (chs "a_s20211931005.tgz" ∈
          LustreRecoverFiles.scan_existing_files [chs "a_s20211931005.tgz"] true
            [(chs "b_s20211931005.nc", true)] ↔
          (chs "a_s20211931005.tgz" ∈ [chs "a_s20211931005.tgz"] ∧
            ∀ t, LustreRecoverFiles.extract_us_ts (chs "a_s20211931005.tgz") = some t →
              t ∉ LustreRecoverFiles.destTimestamps [(chs "b_s20211931005.nc", true)])) :=
  ⟨(claim_C3_resume_scanner [chs "a_s20211931005.tgz"] false []).1 (Or.inl rfl),
   (claim_C3_resume_scanner [chs "a_s20211931005.tgz"] true
      [(chs "b_s20211931005.nc", true)]).2 rfl _⟩

/-- C10: with a non-empty destination, a candidate whose name has no `_s`
start marker is always returned as pending, whatever timestamps the
destination holds. -/
theorem claim_C10_no_marker_kept (archivos : List (List Char)) (destExists : Bool)
    (entries : List (List Char × Bool)) (a : List Char)
    (hne : entries ≠ []) (hnomark : LustreRecoverFiles.extract_us_ts a = none)
    (hmem : a ∈ archivos) :
    a ∈ LustreRecoverFiles.scan_existing_files archivos destExists entries := by
  cases destExists with
  | false => simpa [LustreRecoverFiles.scan_existing_files] using hmem
  | true =>
    have hE : entries.isEmpty = false := by
      simpa [List.isEmpty_iff] using hne
    simp [LustreRecoverFiles.scan_existing_files, hE, List.mem_filter, hmem, hnomark]

/-- C2 counterexample: a bundle containing exactly the requested product set
(`{CMIP}` requested, `{CMIP}` contained — equal, hence NOT a strict subset)
is selectively extracted by the code, not copied whole: the copy decision is
false although the spec-worded predicate demands a whole copy, and the
processor returns the extracted member rather than the bundle itself. -/
theorem claim_C2_counterexample :
    copiar_tgz_completo (chs "L2")
        (productos_en_tgz [(chs "CG_ABI-L2-CMIPF-M6C13_G16_s1_e1_c1.nc", true)])
        (bandas_en_tgz [(chs "CG_ABI-L2-CMIPF-M6C13_G16_s1_e1_c1.nc", true)])
        [chs "CMIP"] [] = false
      ∧ specw_copy_whole (chs "L2")
        (productos_en_tgz [(chs "CG_ABI-L2-CMIPF-M6C13_G16_s1_e1_c1.nc", true)])
        (bandas_en_tgz [(chs "CG_ABI-L2-CMIPF-M6C13_G16_s1_e1_c1.nc", true)])
        [chs "CMIP"] [] = true
      ∧ process_safe_recover_file [(chs "CG_ABI-L2-CMIPF-M6C13_G16_s1_e1_c1.nc", true)]
        (chs "bundle.tgz") (chs "L2") [chs "CMIP"] []
        = Except.ok [chs "CG_ABI-L2-CMIPF-M6C13_G16_s1_e1_c1.nc"] :=
  ⟨by decide, by decide, rfl⟩

/-- C2 amended: the whole bundle is copied verbatim exactly when the request
imposes no product/band filter for the bundle's level, or when the set of
products/bands contained in the bundle is not a (non-strict) subset of the
requested set; a strict superset is still copied whole, while a subset —
including an exactly equal set — is selectively extracted.  When the
decision holds, the processor's result is the verbatim bundle copy. -/
theorem claim_C2_copy_whole_decision :
    (∀ productos_en bandas_en productos_sol bandas_sol : List (List Char),
        copiar_tgz_completo (chs "L2") productos_en bandas_en productos_sol bandas_sol
          = (productos_sol.isEmpty || !subsetL productos_en productos_sol)
        ∧ copiar_tgz_completo (chs "L1b") productos_en bandas_en productos_sol bandas_sol
          = (bandas_sol.isEmpty || !subsetL bandas_en bandas_sol))
      ∧ (∀ miembros archivo nivel productos_sol bandas_sol,
          copiar_tgz_completo nivel (productos_en_tgz miembros) (bandas_en_tgz miembros)
              productos_sol bandas_sol = true →
          process_safe_recover_file miembros archivo nivel productos_sol bandas_sol
            = Except.ok [archivo]) := by
  constructor
  · intro pE bE ps bs
    have h2 : (chs "L2" == chs "L2") = true := by decide
    have h21 : (chs "L2" == chs "L1b") = false := by decide
    have h12 : (chs "L1b" == chs "L2") = false := by decide
    have h1 : (chs "L1b" == chs "L1b") = true := by decide
    constructor
    · cases hp : ps.isEmpty <;>
        simp [copiar_tgz_completo, h2, h21, hp]
    · cases hb : bs.isEmpty <;>
        simp [copiar_tgz_completo, h1, h12, hb]
  · intro miembros archivo nivel ps bs h
    simp [process_safe_recover_file, h]

/-- C2 witness: with no product filter at level L2 the decision is a whole
copy, and the processor indeed returns the bundle itself. -/
theorem claim_C2_witness :
    process_safe_recover_file [(chs "CG_ABI-L2-ACHAF-M6_G16_s1_e1_c1.nc", true)]
        (chs "bundle.tgz") (chs "L2") [] [] = Except.ok [chs "bundle.tgz"] :=
  claim_C2_copy_whole_decision.2 [(chs "CG_ABI-L2-ACHAF-M6_G16_s1_e1_c1.nc", true)]
    (chs "bundle.tgz") (chs "L2") [] [] (by decide)

/-- C4: when the processor chooses selective extraction and no member
matches a requested product or band, the call raises (`Except.error`, the
propagated `FileNotFoundError`) instead of returning an empty success, and
the dispatch loop then records the bundle in the local failure set exactly
as it does for archive read errors. -/
theorem claim_C4_empty_extraction_fails (miembros : List (List Char × Bool))
    (archivo nivel : List Char) (productos_sol bandas_sol : List (List Char))
    (init : List (List Char))
    (rest : List (List Char × Except Unit (List (List Char))))
    (hnc : copiar_tgz_completo nivel (productos_en_tgz miembros) (bandas_en_tgz miembros)
        productos_sol bandas_sol = false)
    (hnm : miembros.filter (fun m => miembro_coincide productos_sol bandas_sol m.1) = []) :
    process_safe_recover_file miembros archivo nivel productos_sol bandas_sol
        = Except.error ()
      ∧ archivo ∈ local_loop
          ((archivo, process_safe_recover_file miembros archivo nivel productos_sol bandas_sol)
            :: rest) init := by
  have hp : process_safe_recover_file miembros archivo nivel productos_sol bandas_sol
      = Except.error () := by
    simp [process_safe_recover_file, hnc, hnm]
  refine ⟨hp, ?_⟩
  simp [local_loop, hp, isErr]

/-- C4 witness: a bundle with no `-L2-` member, queried at L2 for product
`ACHA`, is not copied whole (its empty contained set is a subset of the
request), matches nothing, errors out, and lands in the failure set. -/
theorem claim_C4_witness :
    process_safe_recover_file [(chs "data_C13_x.nc", true)] (chs "w1.tgz") (chs "L2")
        [chs "ACHA"] [] = Except.error ()
      ∧ chs "w1.tgz" ∈ local_loop
          [(chs "w1.tgz",
            process_safe_recover_file [(chs "data_C13_x.nc", true)] (chs "w1.tgz")
              (chs "L2") [chs "ACHA"] [])] [] :=
  claim_C4_empty_extraction_fails [(chs "data_C13_x.nc", true)] (chs "w1.tgz") (chs "L2")
    [chs "ACHA"] [] [] [] (by decide) (by decide)

/-- C10 witness: a candidate without the `_s` marker survives the resume scan
against a destination that already holds a timestamp. -/
theorem claim_C10_witness :
    chs "noMarker.tgz" ∈ LustreRecoverFiles.scan_existing_files [chs "noMarker.tgz"]
      true [(chs "X_s20211931005.nc", true)] :=
  claim_C10_no_marker_kept [chs "noMarker.tgz"] true [(chs "X_s20211931005.nc", true)]
    (chs "noMarker.tgz") (by decide) (by decide) (by decide)

/-- C1 counterexample: a target that failed during local bundle processing
(its worker raised) is absent from the failure set handed to the retry-query
builder when the remote fallback is enabled and the remote phase reports no
failure of its own — the claim's "no locally-failed target is omitted,
whether or not remote fallback is enabled" is false. -/
theorem claim_C1_counterexample :
    chs "w1.tgz" ∈ local_loop [(chs "w1.tgz", Except.error ())] []
      ∧ chs "w1.tgz" ∉ objetivos_fallidos_final true
          (local_loop [(chs "w1.tgz", Except.error ())] []) [] := by
  constructor <;> decide

/-- C1 amended: the failure set consumed by the retry-query builder contains
every local per-target failure (worker exceptions and inaccessible files)
only when the remote fallback is disabled; when the fallback is enabled the
failure set is exactly the remote download phase's failure list, and local
failures are not folded into it. -/
theorem claim_C1_failure_set (enabled : Bool)
    (outcomes : List (List Char × Except Unit (List (List Char))))
    (inaccessible s3_still_failed : List (List Char)) :
    (enabled = false → ∀ t r, (t, r) ∈ outcomes → isErr r = true →
        t ∈ objetivos_fallidos_final enabled (local_loop outcomes inaccessible)
            s3_still_failed)
      ∧ (enabled = false → ∀ t ∈ inaccessible,
          t ∈ objetivos_fallidos_final enabled (local_loop outcomes inaccessible)
              s3_still_failed)
      ∧ (enabled = true →
          objetivos_fallidos_final enabled (local_loop outcomes inaccessible)
              s3_still_failed = s3_still_failed) := by
  refine ⟨?_, ?_, ?_⟩
  · rintro rfl t r hm herr
    simp only [objetivos_fallidos_final, Bool.false_eq_true, if_false]
    refine List.mem_append.mpr (Or.inr ?_)
    exact List.mem_map.mpr ⟨(t, r), List.mem_filter.mpr ⟨hm, herr⟩, rfl⟩
  · rintro rfl t ht
    simp only [objetivos_fallidos_final, Bool.false_eq_true, if_false]
    exact List.mem_append.mpr (Or.inl ht)
  · rintro rfl
    simp [objetivos_fallidos_final]

/-- C1 witness: with the fallback disabled both kinds of local failure reach
the retry builder's failure set; with it enabled the set equals the remote
failure list. -/
theorem claim_C1_witness :
    chs "w2.tgz" ∈ objetivos_fallidos_final false
        (local_loop [(chs "w2.tgz", Except.error ())] [chs "w0.tgz"]) [chs "s3a"]
      ∧ chs "w0.tgz" ∈ objetivos_fallidos_final false
          (local_loop [(chs "w2.tgz", Except.error ())] [chs "w0.tgz"]) [chs "s3a"]
      ∧ objetivos_fallidos_final true
          (local_loop [(chs "w2.tgz", Except.error ())] [chs "w0.tgz"]) [chs "s3a"]
          = [chs "s3a"] :=
  ⟨(claim_C1_failure_set false [(chs "w2.tgz", Except.error ())] [chs "w0.tgz"]
      [chs "s3a"]).1 rfl (chs "w2.tgz") (Except.error ())
      (List.mem_singleton.mpr rfl) rfl,
   (claim_C1_failure_set false [(chs "w2.tgz", Except.error ())] [chs "w0.tgz"]
      [chs "s3a"]).2.1 rfl (chs "w0.tgz") (by decide),
   (claim_C1_failure_set true [(chs "w2.tgz", Except.error ())] [chs "w0.tgz"]
      [chs "s3a"]).2.2 rfl⟩

/-- C5 counterexample: already with a single pending target, the dispatch
loop's trace places the progress write for target 0 strictly before the
await of that target's result, so the claim that updates happen only after
the awaited completion is false. -/
theorem claim_C5_counterexample : ¬ specw_updatesAfterAwait 1 := by
  intro h
  exact absurd (h 0 (by decide)) (by decide)

/-- The progress formula of the dispatch loop is monotone in the iteration
index. -/
theorem progreso_mono (total i j : Nat) (h : i ≤ j) :
    progreso total i ≤ progreso total j :=
  Nat.add_le_add_left (Nat.div_le_div_right (by omega)) 20

/-- Positions of the update and await events inside the dispatch-loop
trace: iteration `d` contributes the update at position `2d` and the await
immediately after it. -/
theorem traceAux_get (total d : Nat) : ∀ i k, d < k →
    (traceAux total i k).get? (2 * d)
        = some (PEvent.update (i + d) (progreso total (i + d)))
      ∧ (traceAux total i k).get? (2 * d + 1) = some (PEvent.await (i + d)) := by
  induction d with
  | zero =>
    intro i k h
    match k, h with
    | k + 1, _ => simp [traceAux]
  | succ d ih =>
    intro i k h
    match k, h with
    | k + 1, h =>
      have h2 : d < k := Nat.lt_of_succ_lt_succ h
      have ihs := ih (i + 1) k h2
      have e2 : i + 1 + d = i + (d + 1) := by omega
      have e1 : 2 * (d + 1) = 2 * d + 1 + 1 := by ring
      have e1' : 2 * (d + 1) + 1 = 2 * d + 1 + 1 + 1 := by ring
      constructor
      · rw [e1]
        simp only [traceAux, List.get?_cons_succ]
        rw [← e2]
        exact ihs.1
      · rw [e1']
        simp only [traceAux, List.get?_cons_succ]
        rw [← e2]
        exact ihs.2

/-- C5 amended: in the dispatch loop each target's progress write is emitted
immediately BEFORE that target's result is awaited (position `2i` versus
`2i+1` in the trace), one write per target, and the written progress values
are monotonically non-decreasing over the run. -/
theorem claim_C5_update_precedes_await (total i : Nat) (h : i < total) :
    (local_trace total).get? (2 * i) = some (PEvent.update i (progreso total i))
      ∧ (local_trace total).get? (2 * i + 1) = some (PEvent.await i)
      ∧ ∀ j, j ≤ i → progreso total j ≤ progreso total i := by
  have hg := traceAux_get total i 0 total h
  simp only [Nat.zero_add] at hg
  exact ⟨hg.1, hg.2, fun j hj => progreso_mono total j i hj⟩

/-- C5 witness: with two pending targets, iteration 1 writes its update at
position 2 and awaits at position 3, and its progress is at least
iteration 0's. -/
theorem claim_C5_witness :
    (local_trace 2).get? (2 * 1) = some (PEvent.update 1 (progreso 2 1))
      ∧ (local_trace 2).get? (2 * 1 + 1) = some (PEvent.await 1)
      ∧ progreso 2 0 ≤ progreso 2 1 :=
  ⟨(claim_C5_update_precedes_await 2 1 (by decide)).1,
   (claim_C5_update_precedes_await 2 1 (by decide)).2.1,
   (claim_C5_update_precedes_await 2 1 (by decide)).2.2 0 (by decide)⟩

/-- C6: remote discovery splits the upper-cased requested products into the
CMI-prefixed family — queried with the request's band list — and the
bandless family — queried with an explicitly empty band list; every
requested product lands in one of the two passes; the L2 pattern generator
expands a CMI product with no supplied bands to exactly the sixteen bands
`01`…`16`, and generates for a non-CMI product a single bandless pattern on
which the band list has no effect. -/
theorem claim_C6_remote_split (productos bandas : List (List Char))
    (dominio sat ti tf : List Char) :
    (∀ pr ∈ s3_discovery_passes productos bandas,
        ((∀ p ∈ pr.1, startsCMI p = true) ∧ pr.2 = bandas)
          ∨ ((∀ p ∈ pr.1, startsCMI p = false) ∧ pr.2 = []))
      ∧ (∀ p ∈ productos.map stripUpper,
          ∃ pr ∈ s3_discovery_passes productos bandas, p ∈ pr.1)
      ∧ (∀ prod, startsCMI (stripUpper prod) = true →
          (iter_patrones_l2 [prod] dominio [] sat ti tf).length = 16
            ∧ ∀ k, k < 16 →
                (iter_patrones_l2 [prod] dominio [] sat ti tf).get? k
                  = some (patternCMI (stripUpper prod) (dom_letter dominio)
                      (padZ 2 (k + 1)) sat ti tf))
      ∧ (∀ prod, startsCMI (stripUpper prod) = false →
          iter_patrones_l2 [prod] dominio bandas sat ti tf
            = [patternNB (stripUpper prod) (dom_letter dominio) sat ti tf]) := by
  refine ⟨?_, ?_, ?_, ?_⟩
  · intro pr hpr
    simp only [s3_discovery_passes, List.mem_append] at hpr
    rcases hpr with h | h
    · split at h
      · simp at h
      · left
        obtain rfl := List.mem_singleton.mp h
        exact ⟨fun p hp => (List.mem_filter.mp hp).2, rfl⟩
    · split at h
      · simp at h
      · right
        obtain rfl := List.mem_singleton.mp h
        refine ⟨fun p hp => ?_, rfl⟩
        have := (List.mem_filter.mp hp).2
        simpa using this
  · intro p hp
    by_cases hc : startsCMI p = true
    · have hmem : p ∈ (productos.map stripUpper).filter startsCMI :=
        List.mem_filter.mpr ⟨hp, hc⟩
      have hne : ((productos.map stripUpper).filter startsCMI).isEmpty = false := by
        rcases hq : (productos.map stripUpper).filter startsCMI with _ | ⟨x, xs⟩
        · rw [hq] at hmem; simp at hmem
        · rfl
      refine ⟨((productos.map stripUpper).filter startsCMI, bandas), ?_, hmem⟩
      simp [s3_discovery_passes, hne]
    · have hc2 : (fun q => !startsCMI q) p = true := by
        simp [Bool.not_eq_true] at hc
        simp [hc]
      have hmem : p ∈ (productos.map stripUpper).filter (fun q => !startsCMI q) :=
        List.mem_filter.mpr ⟨hp, hc2⟩
      have hne : ((productos.map stripUpper).filter (fun q => !startsCMI q)).isEmpty
          = false := by
        rcases hq : (productos.map stripUpper).filter (fun q => !startsCMI q)
          with _ | ⟨x, xs⟩
        · rw [hq] at hmem; simp at hmem
        · rfl
      refine ⟨((productos.map stripUpper).filter (fun q => !startsCMI q), []), ?_, hmem⟩
      simp [s3_discovery_passes, hne]
  · intro prod hc
    constructor
    · simp [iter_patrones_l2, hc, allBands]
    · intro k hk
      have hb : band2 (padZ 2 (k + 1)) = padZ 2 (k + 1) := by
        interval_cases k <;> decide
      simp only [iter_patrones_l2, List.map_cons, List.map_nil, List.flatMap_cons,
        List.flatMap_nil, hc, if_true, List.isEmpty_nil, List.append_nil,
        List.getElem?_map, allBands, List.getElem?_range, hk, if_pos,
        List.get?_eq_getElem?]
      simp [hb]
  · intro prod hc
    simp [iter_patrones_l2, hc]

/-- C6 witness: for the request products `["CMIP", "acha"]` the product
`ACHA` reaches a discovery pass; a CMI product with no supplied bands
expands to sixteen patterns; and a bandless product's pattern list ignores
the supplied band `13`. -/
theorem claim_C6_witness :
    (∃ pr ∈ s3_discovery_passes [chs "CMIP", chs "acha"] [chs "13"],
        chs "ACHA" ∈ pr.1)
      ∧ (iter_patrones_l2 [chs "cmip"] (chs "conus") [] (chs "G16") (chs "T1")
          (chs "T2")).length = 16
      ∧ iter_patrones_l2 [chs "acha"] (chs "fd") [chs "13"] (chs "G16") (chs "T1")
          (chs "T2")
        = [patternNB (stripUpper (chs "acha")) (dom_letter (chs "fd")) (chs "G16")
            (chs "T1") (chs "T2")] :=
  ⟨(claim_C6_remote_split [chs "CMIP", chs "acha"] [chs "13"] (chs "fd") (chs "G16")
      (chs "T1") (chs "T2")).2.1 (chs "ACHA") (by decide),
   ((claim_C6_remote_split [chs "cmip"] [] (chs "conus") (chs "G16") (chs "T1")
      (chs "T2")).2.2.1 (chs "cmip") (by decide)).1,
   (claim_C6_remote_split [chs "acha"] [chs "13"] (chs "fd") (chs "G16") (chs "T1")
      (chs "T2")).2.2.2 (chs "acha") (by decide)⟩

end Claims
